import Mathlib

/-!
Shallow embedding of the Sway-Chatbot repository (src/content_generate_api.py,
src/main.py, src/utils.py) and proofs about it.

Python values that flow through the syllabus API (parsed request bodies,
`json.loads` results, the dictionaries built by the handlers) are modelled by
the inductive type `Json`.  Python exceptions are modelled by `PyExc`;
functions whose Python counterparts can raise return `Except PyExc _`, and a
`try/except` block is a `match` on that result.

Machine-level caveats of the model, stated once here: JSON number literals are
modelled as integers only (a `.` or exponent in a number is reported as a
parse error rather than producing a float), and `\u` escapes do not combine
surrogate pairs.  No claim below depends on numeric or surrogate inputs.
-/

/-- Model of a Python/JSON value. -/
inductive Json where
  | jnull : Json
  | jbool : Bool → Json
  | jnum : Int → Json
  | jstr : String → Json
  | jarr : List Json → Json
  | jobj : List (String × Json) → Json

/-- Model of a Python exception, tagged by the exception class the
`except` clauses of the source distinguish. -/
inductive PyExc where
  | jsonDecodeError : String → PyExc
  | indexError : String → PyExc
  | keyError : String → PyExc
  | other : String → PyExc

/-- Model of Python `str(e)` on an exception. -/
def excMsg : PyExc → String
  | PyExc.jsonDecodeError m => m
  | PyExc.indexError m => m
  | PyExc.keyError m => m
  | PyExc.other m => m

/-- First value bound to a key in an association list: Python `dict` lookup
(JSON object keys are inserted in order, first binding wins for lookup). -/
def lookupKey : List (String × Json) → String → Option Json
  | [], _ => none
  | (k, v) :: rest, key => if k == key then some v else lookupKey rest key

/-- Python `j[k]` on a dict-like value: `some` on hit, `none` otherwise. -/
def getValue (j : Json) (key : String) : Option Json :=
  match j with
  | Json.jobj kvs => lookupKey kvs key
  | _ => none

/-- Python subscript `j[k]` raising `KeyError` when the key is absent. -/
def pyGetItem (j : Json) (key : String) : Except PyExc Json :=
  match getValue j key with
  | some v => Except.ok v
  | none => Except.error (PyExc.keyError key)

/-- Python `l[i]` on a list, raising `IndexError` when out of range. -/
def pyIndex {α : Type} (l : List α) (i : Nat) : Except PyExc α :=
  match l[i]? with
  | some a => Except.ok a
  | none => Except.error (PyExc.indexError "list index out of range")

/-- Whitespace skipped by the JSON grammar of `json.loads`. -/
def jsonWs (c : Char) : Bool :=
  c == ' ' || c == '\t' || c == '\n' || c == '\r'

/-- Value of one hexadecimal digit, or a decode error. -/
def hexDigit (c : Char) : Except String Nat :=
  if 48 ≤ c.toNat && c.toNat ≤ 57 then Except.ok (c.toNat - 48)
  else if 97 ≤ c.toNat && c.toNat ≤ 102 then Except.ok (c.toNat - 87)
  else if 65 ≤ c.toNat && c.toNat ≤ 70 then Except.ok (c.toNat - 55)
  else Except.error "Invalid hex escape"

/-- Body of a JSON string after the opening quote: returns the decoded
characters and the input remaining after the closing quote. -/
def parseStrChars : List Char → Except String (List Char × List Char)
  | [] => Except.error "Unterminated string"
  | '\"' :: rest => Except.ok ([], rest)
  | '\\' :: 'u' :: a :: b :: c :: d :: rest => do
    let na ← hexDigit a
    let nb ← hexDigit b
    let nc ← hexDigit c
    let nd ← hexDigit d
    let (cs, r) ← parseStrChars rest
    Except.ok (Char.ofNat (((na * 16 + nb) * 16 + nc) * 16 + nd) :: cs, r)
  | '\\' :: e :: rest => do
    let c ←
      match e with
      | '\"' => Except.ok '\"'
      | '\\' => Except.ok '\\'
      | '/' => Except.ok '/'
      | 'b' => Except.ok '\x08'
      | 'f' => Except.ok '\x0c'
      | 'n' => Except.ok '\n'
      | 'r' => Except.ok '\r'
      | 't' => Except.ok '\t'
      | _ => Except.error "Invalid escape"
    let (cs, r) ← parseStrChars rest
    Except.ok (c :: cs, r)
  | c :: rest =>
    if c.toNat < 32 then Except.error "Invalid control character"
    else do
      let (cs, r) ← parseStrChars rest
      Except.ok (c :: cs, r)

/-- Decimal digits folded into a natural number. -/
def digitsToNat (ds : List Char) : Nat :=
  ds.foldl (fun acc c => acc * 10 + (c.toNat - 48)) 0

/-- JSON number parse (integer part only; a fraction or exponent is reported
as an error, see the file header). -/
def parseNumber (s : List Char) : Except String (Json × List Char) :=
  let (neg, body) :=
    match s with
    | '-' :: rest => (true, rest)
    | _ => (false, s)
  let digits := body.takeWhile Char.isDigit
  if digits.isEmpty then Except.error "Expecting value"
  else
    let rest := body.drop digits.length
    match rest with
    | '.' :: _ => Except.error "Fractional literals are not modelled"
    | 'e' :: _ => Except.error "Exponent literals are not modelled"
    | 'E' :: _ => Except.error "Exponent literals are not modelled"
    | _ =>
      let n : Int := Int.ofNat (digitsToNat digits)
      Except.ok (Json.jnum (if neg then -n else n), rest)

/-- Whether the first list is an initial segment of the second. -/
def startsWith : List Char → List Char → Bool
  | [], _ => true
  | _ :: _, [] => false
  | a :: as, b :: bs => a == b && startsWith as bs

/-- Expects the literal characters `lit` at the head of `s`, yielding `v`. -/
def expectLit (lit : List Char) (s : List Char) (v : Json) :
    Except String (Json × List Char) :=
  if startsWith lit s then Except.ok (v, s.drop lit.length)
  else Except.error "Expecting value"

mutual

/-- Recursive-descent JSON value parser (model of the grammar accepted by
`json.loads`); `fuel` bounds recursion depth and is chosen large enough by
`jsonLoads`. -/
def parseValue : Nat → List Char → Except String (Json × List Char)
  | 0, _ => Except.error "Recursion limit"
  | fuel + 1, s =>
    match s.dropWhile jsonWs with
    | [] => Except.error "Expecting value"
    | c :: rest =>
      if c == '\x7b' then
        match rest.dropWhile jsonWs with
        | '\x7d' :: r => Except.ok (Json.jobj [], r)
        | _ => parseMembers fuel [] rest
      else if c == '[' then
        match rest.dropWhile jsonWs with
        | ']' :: r => Except.ok (Json.jarr [], r)
        | _ => parseElems fuel [] rest
      else if c == '\"' then
        match parseStrChars rest with
        | Except.ok (cs, r) => Except.ok (Json.jstr (String.mk cs), r)
        | Except.error e => Except.error e
      else if c == 't' then expectLit ['r', 'u', 'e'] rest (Json.jbool true)
      else if c == 'f' then expectLit ['a', 'l', 's', 'e'] rest (Json.jbool false)
      else if c == 'n' then expectLit ['u', 'l', 'l'] rest Json.jnull
      else if c == '-' || c.isDigit then parseNumber (c :: rest)
      else Except.error "Expecting value"

/-- Members of a JSON object after the opening brace (nonempty case). -/
def parseMembers : Nat → List (String × Json) → List Char →
    Except String (Json × List Char)
  | 0, _, _ => Except.error "Recursion limit"
  | fuel + 1, acc, s =>
    match s.dropWhile jsonWs with
    | '\"' :: rest =>
      (match parseStrChars rest with
      | Except.error e => Except.error e
      | Except.ok (kcs, r1) =>
        match r1.dropWhile jsonWs with
        | ':' :: r2 =>
          (match parseValue fuel r2 with
          | Except.error e => Except.error e
          | Except.ok (v, r3) =>
            match r3.dropWhile jsonWs with
            | ',' :: r4 => parseMembers fuel (acc ++ [(String.mk kcs, v)]) r4
            | '\x7d' :: r4 => Except.ok (Json.jobj (acc ++ [(String.mk kcs, v)]), r4)
            | _ => Except.error "Expecting delimiter")
        | _ => Except.error "Expecting colon")
    | _ => Except.error "Expecting property name"

/-- Elements of a JSON array after the opening bracket (nonempty case). -/
def parseElems : Nat → List Json → List Char → Except String (Json × List Char)
  | 0, _, _ => Except.error "Recursion limit"
  | fuel + 1, acc, s =>
    match parseValue fuel s with
    | Except.error e => Except.error e
    | Except.ok (v, r1) =>
      match r1.dropWhile jsonWs with
      | ',' :: r2 => parseElems fuel (acc ++ [v]) r2
      | ']' :: r2 => Except.ok (Json.jarr (acc ++ [v]), r2)
      | _ => Except.error "Expecting delimiter"

end

/-- Model of Python `json.loads`: parse one JSON value and require only
whitespace after it (otherwise Python reports "Extra data"). -/
def jsonLoads (s : List Char) : Except String Json :=
  match parseValue (2 * s.length + 2) s with
  | Except.error e => Except.error e
  | Except.ok (v, rest) =>
    if (rest.dropWhile jsonWs).isEmpty then Except.ok v
    else Except.error "Extra data"

/-- The `json.loads` call of `clean_response`, raising `json.JSONDecodeError`
on failure. -/
def jsonLoadsExc (s : List Char) : Except PyExc Json :=
  match jsonLoads s with
  | Except.ok j => Except.ok j
  | Except.error m => Except.error (PyExc.jsonDecodeError m)

/-- First index of `sub` in `s` (leftmost occurrence), for nonempty `sub`. -/
def findSubIdx (sub s : List Char) : Option Nat :=
  (List.range (s.length + 1)).find? (fun i => startsWith sub (s.drop i))

/-- Python `sub in s` substring test, for nonempty `sub`. -/
def pyIn (sub s : List Char) : Bool :=
  (findSubIdx sub s).isSome

/-- Python `s.split(sep)` for nonempty `sep`, with explicit recursion fuel
(`pySplit` supplies fuel that always suffices because each found separator
consumes at least one character). -/
def pySplitAux (sep : List Char) : Nat → List Char → List (List Char)
  | 0, s => [s]
  | fuel + 1, s =>
    match findSubIdx sep s with
    | none => [s]
    | some i => s.take i :: pySplitAux sep fuel (s.drop (i + sep.length))

/-- Python `s.split(sep)` on character lists. -/
def pySplit (sep s : List Char) : List (List Char) :=
  if sep.isEmpty then [s] else pySplitAux sep (s.length + 1) s

/-- Characters removed by Python `str.strip()` with no argument. -/
def isPySpace (c : Char) : Bool :=
  c == ' ' || c == '\t' || c == '\n' || c == '\r' || c == '\x0b' || c == '\x0c'

/-- Python `s.strip()` on character lists. -/
def pyStrip (s : List Char) : List Char :=
  ((s.dropWhile isPySpace).reverse.dropWhile isPySpace).reverse

/-- Model of `re.search(r'({[^}]*})', text).group(1)`: the leftmost match is
anchored at the first opening brace followed somewhere later by a closing
brace, and the greedy `[^}]*` runs to the first closing brace after it. -/
def braceMatch (s : List Char) : Option (List Char) :=
  match s.findIdx? (fun c => c == '\x7b') with
  | none => none
  | some i =>
    let after := s.drop (i + 1)
    match after.findIdx? (fun c => c == '\x7d') with
    | none => none
    | some j => some ('\x7b' :: (after.take j ++ ['\x7d']))

/-- The `"<startJson>"` sentinel of `clean_response`. -/
def startMarker : List Char := "<startJson>".data

/-- The `"</endJson>"` sentinel of `clean_response`. -/
def endMarker : List Char := "</endJson>".data

/-- The error object `clean_response` returns when no JSON object can be
located in the text (the "Could not extract" branch). -/
def noExtractErr (response : String) : Json :=
  Json.jobj
    [("error", Json.jstr "Could not extract JSON from response"),
     ("raw_response", Json.jstr response)]

/-- The error object `clean_response` builds in its `except` clause. -/
def parseFailErr (details response : String) : Json :=
  Json.jobj
    [("error", Json.jstr "Failed to parse JSON response"),
     ("details", Json.jstr details),
     ("raw_response", Json.jstr response)]

/-- Lines 56-59 of src/content_generate_api.py: strip the extracted text and
wrap it in braces when it does not already begin with one. -/
def sentinelJsonStr (piece : List Char) : List Char :=
  let stripped := pyStrip piece
  if stripped.head? == some '\x7b' then stripped
  else '\x7b' :: (stripped ++ ['\x7d'])

/-- Line 63 of src/content_generate_api.py:
`response.replace('\n', ' ').replace('\\', '')`. -/
def cleanedText (r : List Char) : List Char :=
  (r.map (fun c => if c == '\n' then ' ' else c)).filter (fun c => c != '\\')

/-- Body of the `try` block of `clean_response`
(src/content_generate_api.py lines 53-76): sentinel extraction, else regex
extraction, then `json.loads`; exceptions propagate to the caller. -/
def cleanResponseTry (response : String) : Except PyExc Json :=
  let r := response.data
  if pyIn startMarker r then
    match pyIndex (pySplit startMarker r) 1 with
    | Except.error e => Except.error e
    | Except.ok part =>
      match pyIndex (pySplit endMarker part) 0 with
      | Except.error e => Except.error e
      | Except.ok piece => jsonLoadsExc (sentinelJsonStr piece)
  else
    match braceMatch (cleanedText r) with
    | some jsonStr => jsonLoadsExc jsonStr
    | none => Except.ok (noExtractErr response)

/-- Model of `clean_response` (src/content_generate_api.py lines 51-84):
the `try` body with an `except (json.JSONDecodeError, IndexError)` clause
that converts those exceptions into the structured error object; any other
exception would propagate. -/
def clean_response (response : String) : Except PyExc Json :=
  match cleanResponseTry response with
  | Except.ok j => Except.ok j
  | Except.error (PyExc.jsonDecodeError m) => Except.ok (parseFailErr m response)
  | Except.error (PyExc.indexError m) => Except.ok (parseFailErr m response)
  | Except.error e => Except.error e

/-- Per-item check of `validate_request` (the `elif` chain of
src/content_generate_api.py lines 94-101): at most one error per item. -/
def itemCheck (idx : Nat) (item : Json) : Option String :=
  match item with
  | Json.jobj kvs =>
    (match lookupKey kvs "subject" with
    | none => some ("Missing \x27subject\x27 field in item at index " ++ Nat.repr idx)
    | some v =>
      match v with
      | Json.jstr s =>
        if (pyStrip s.data).isEmpty then
          some ("\x27subject\x27 cannot be empty in item at index " ++ Nat.repr idx)
        else none
      | _ => some ("\x27subject\x27 must be a string in item at index " ++ Nat.repr idx))
  | _ => some ("Item at index " ++ Nat.repr idx ++ " must be an object")

/-- The `for idx, item in enumerate(data)` loop of `validate_request`,
collecting the error messages in order. -/
def validateItems (idx : Nat) : List Json → List String
  | [] => []
  | item :: rest =>
    match itemCheck idx item with
    | some msg => msg :: validateItems (idx + 1) rest
    | none => validateItems (idx + 1) rest

/-- Model of `validate_request` (src/content_generate_api.py lines 86-103). -/
def validate_request (data : Json) : List String :=
  match data with
  | Json.jarr items => validateItems 0 items
  | _ => ["Request body must be a list of objects"]

/-- Model of `process_item` (src/content_generate_api.py lines 105-125).
The LLM chain is external, so it enters as the function `llm` from the
subject value to the `.content` string of the reply, or to an exception.
The `clean_response` call on line 116 is commented out in the source, so on
success the raw output string is returned; the bare `except Exception`
converts any exception into the structured error dictionary. -/
def process_item (llm : Json → Except PyExc String) (subject : Json) : Json :=
  match llm subject with
  | Except.ok output => Json.jstr output
  | Except.error e =>
    Json.jobj
      [("error", Json.jstr "An unexpected error occurred during processing"),
       ("details", Json.jstr (excMsg e))]

/-- The value `item["subject"]`, totalised with `jnull` for the cases the
validator has already excluded. -/
def subjectField (item : Json) : Json :=
  (getValue item "subject").getD Json.jnull

/-- The `for item in data` loop of `generate_syllabus`: `item["subject"]`
can raise `KeyError` (into the surrounding `try`), `process_item` cannot
raise. -/
def processItems (llm : Json → Except PyExc String) :
    List Json → Except PyExc (List Json)
  | [] => Except.ok []
  | item :: rest =>
    match pyGetItem item "subject" with
    | Except.error e => Except.error e
    | Except.ok subj =>
      match processItems llm rest with
      | Except.error e => Except.error e
      | Except.ok rs => Except.ok (process_item llm subj :: rs)

/-- Body of the `try` block of `generate_syllabus`
(src/content_generate_api.py lines 130-146).  The request body enters as
`none` when `request.get_json()` returned `None`, otherwise as the parsed
`Json`.  Iterating a non-list value would raise `TypeError`; validation
makes that branch unreachable. -/
def generateSyllabusTry (llm : Json → Except PyExc String)
    (body : Option Json) : Except PyExc (Json × Nat) :=
  match body with
  | none => Except.ok (Json.jobj [("error", Json.jstr "Invalid JSON in request body")], 400)
  | some data =>
    let validationErrors := validate_request data
    if validationErrors.isEmpty then
      match data with
      | Json.jarr items =>
        (match processItems llm items with
        | Except.error e => Except.error e
        | Except.ok responses => Except.ok (Json.jarr responses, 200))
      | _ => Except.error (PyExc.other "TypeError: object is not iterable")
    else
      Except.ok (Json.jobj [("errors", Json.jarr (validationErrors.map Json.jstr))], 400)

/-- Model of the `/SwaySyllabusGenerator` handler `generate_syllabus`
(src/content_generate_api.py lines 127-153): the `try` body plus the
`except Exception` clause producing the 500 response. -/
def generate_syllabus (llm : Json → Except PyExc String)
    (body : Option Json) : Json × Nat :=
  match generateSyllabusTry llm body with
  | Except.ok resp => resp
  | Except.error e =>
    (Json.jobj
      [("error", Json.jstr "Internal server error"),
       ("details", Json.jstr (excMsg e))], 500)

/-- A chunk produced by the text splitter (its page content). -/
def Chunk : Type := String

/-- Model of a FAISS vector store: the chunks it was built from. -/
structure VectorStore where
  chunks : List Chunk

/-- Model of `FAISS.from_documents(splits, embeddings)`: the store holds
exactly the given splits. -/
def FAISS_from_documents (splits : List Chunk) : VectorStore :=
  VectorStore.mk splits

/-- Insertion of one element into a list sorted by `le`. -/
def insertLe {α : Type} (le : α → α → Bool) (a : α) : List α → List α
  | [] => [a]
  | b :: bs => if le a b then a :: b :: bs else b :: insertLe le a bs

/-- Insertion sort by `le` (used to model similarity ranking). -/
def sortByLe {α : Type} (le : α → α → Bool) : List α → List α
  | [] => []
  | a :: as => insertLe le a (sortByLe le as)

/-- Model of `retriever.get_relevant_documents(query)` on the store the
retriever was derived from: the `k` chunks of the store ranked most similar
to the query under the embedding similarity `sim`. -/
def get_relevant_documents (vs : VectorStore) (sim : String → Chunk → Int)
    (query : String) (k : Nat) : List Chunk :=
  (sortByLe (fun a b => decide (sim query b ≤ sim query a)) vs.chunks).take k

/-- Model of a LangChain `Tool` as wired by src/utils.py: its name and the
vector store its function queries. -/
structure Tool where
  name : String
  store : VectorStore

/-- Model of `create_retriever_tool_agent` (src/utils.py lines 9-27).
`load` stands for `PyPDFLoader(path).load()` (the page texts behind a path)
and `splitDocs` for `RecursiveCharacterTextSplitter.split_documents`; both
are third-party collaborators, so they enter as parameters. -/
def create_retriever_tool_agent (load : String → List String)
    (splitDocs : List String → List Chunk) (pdf_path : String) : Tool :=
  let documents := load pdf_path
  let splits := splitDocs documents
  let vectorstore := FAISS_from_documents splits
  Tool.mk "pdf_retriever" vectorstore

/-- Model of a LangChain `AgentExecutor` as built by `create_agent`: the
tools the agent can call. -/
structure AgentExecutor where
  tools : List Tool

/-- An uploaded PDF in the Streamlit file uploader: its `.name` and the
pages its bytes decode to. -/
structure UploadedPdf where
  name : String
  content : List String

/-- Model of `StudentHelplineApp.save_uploaded_pdf` (src/main.py lines
67-82): writes the bytes under `pdfs/<name>` and returns that path. -/
def save_uploaded_pdf (pdf : UploadedPdf) : String :=
  "pdfs/" ++ pdf.name

/-- Model of `StudentHelplineApp.create_agent` (src/main.py lines 39-65):
with an uploaded PDF the tool list is the single retriever tool over that
PDF's saved path, otherwise it is empty. -/
def create_agent (load : String → List String)
    (splitDocs : List String → List Chunk)
    (uploaded : Option UploadedPdf) : AgentExecutor :=
  match uploaded with
  | some pdf =>
    AgentExecutor.mk [create_retriever_tool_agent load splitDocs (save_uploaded_pdf pdf)]
  | none => AgentExecutor.mk []

/-- One conversation turn stored in `st.session_state.messages`. -/
structure ConversationTurn where
  role : String
  content : Json

/-- The Streamlit session state initialised by
`StudentHelplineApp.initialize_state` (src/main.py lines 30-37). -/
structure AppState where
  messages : List ConversationTurn
  agent_executor : Option AgentExecutor
  uploaded_pdf_name : List String

/-- The fresh session state of `initialize_state`. -/
def initialState : AppState :=
  AppState.mk [] none []

/-- The history slice `st.session_state.messages[-5:]` rendered by
`StudentHelplineApp.run` (src/main.py line 101). -/
def displayed_messages (msgs : List ConversationTurn) : List ConversationTurn :=
  msgs.drop (msgs.length - 5)

/-- The argument dictionary `{"input": prompt}` that `generate_response`
passes to `agent_executor.invoke` (src/main.py lines 87-89); it is built
from the prompt alone. -/
def agentPayload (prompt : String) : Json :=
  Json.jobj [("input", Json.jstr prompt)]

/-- The expression `agent_executor.invoke({"input": prompt})["output"]`:
the agent call is external and enters as the function `agent`; the
`["output"]` subscript can raise `KeyError` inside the same `try`. -/
def invokeAgentOutput (agent : Json → Except PyExc Json)
    (prompt : String) : Except PyExc Json :=
  match agent (agentPayload prompt) with
  | Except.error e => Except.error e
  | Except.ok resp => pyGetItem resp "output"

/-- The fixed apology `generate_response` returns on failure. -/
def apologyMsg : String :=
  "I apologize, but I encountered an error. Please try asking your question again."

/-- Model of `StudentHelplineApp.generate_response` (src/main.py lines
84-95): the `try` body plus the `except Exception` clause returning the
fixed apology string. -/
def generate_response (agent : Json → Except PyExc Json) (prompt : String) : Json :=
  match invokeAgentOutput agent prompt with
  | Except.ok out => out
  | Except.error _ => Json.jstr apologyMsg

/-- The agent-initialisation section of `StudentHelplineApp.run`
(src/main.py lines 112-117): build a default agent when there is neither an
upload nor an executor; rebuild the executor from an upload only when its
filename has not been seen, and then record the filename. -/
def updateAgentState (load : String → List String)
    (splitDocs : List String → List Chunk)
    (s : AppState) (uploaded : Option UploadedPdf) : AppState :=
  let s1 :=
    if uploaded.isNone && s.agent_executor.isNone then
      { s with agent_executor := some (create_agent load splitDocs none) }
    else s
  match uploaded with
  | some pdf =>
    if s1.uploaded_pdf_name.contains pdf.name then s1
    else
      { s1 with
        agent_executor := some (create_agent load splitDocs (some pdf)),
        uploaded_pdf_name := pdf.name :: s1.uploaded_pdf_name }
  | none => s1

/-- The chat-interface section of `StudentHelplineApp.run` (src/main.py
lines 120-129): append the user turn, generate a response, append the
assistant turn. -/
def chat_turn (agent : Json → Except PyExc Json) (s : AppState)
    (prompt : String) : AppState :=
  let withUser := s.messages ++ [ConversationTurn.mk "user" (Json.jstr prompt)]
  let response := generate_response agent prompt
  { s with messages := withUser ++ [ConversationTurn.mk "assistant" response] }

/-- The success predicate of one `validate_request` item check: the item is
an object whose `subject` value is a string that is nonempty after strip. -/
def itemOk (item : Json) : Bool :=
  match getValue item "subject" with
  | some (Json.jstr s) => !(pyStrip s.data).isEmpty
  | _ => false

/-- An erroring `pyIndex` always raises `IndexError`. -/
theorem pyIndex_error {α : Type} (l : List α) (i : Nat) (e : PyExc)
    (h : pyIndex l i = Except.error e) : ∃ m, e = PyExc.indexError m := by
  unfold pyIndex at h
  cases hg : l[i]? with
  | some a => rw [hg] at h; exact absurd h (by simp)
  | none =>
    rw [hg] at h
    injection h with h2
    exact ⟨_, h2.symm⟩

/-- Case split on the `try` body of `clean_response`: it either returns a
successfully parsed JSON value, returns the no-extract error object, or
raises one of the two exception classes the `except` clause catches. -/
theorem cleanResponseTry_cases (s : String) :
    (∃ cs j, cleanResponseTry s = Except.ok j ∧ jsonLoads cs = Except.ok j) ∨
      cleanResponseTry s = Except.ok (noExtractErr s) ∨
      (∃ m, cleanResponseTry s = Except.error (PyExc.jsonDecodeError m)) ∨
      (∃ m, cleanResponseTry s = Except.error (PyExc.indexError m)) := by
  by_cases h1 : pyIn startMarker s.data = true
  · cases hp : pyIndex (pySplit startMarker s.data) 1 with
    | error e =>
      obtain ⟨m, rfl⟩ := pyIndex_error _ _ _ hp
      refine Or.inr (Or.inr (Or.inr ⟨m, ?_⟩))
      simp [cleanResponseTry, h1, hp]
    | ok part =>
      cases hq : pyIndex (pySplit endMarker part) 0 with
      | error e =>
        obtain ⟨m, rfl⟩ := pyIndex_error _ _ _ hq
        refine Or.inr (Or.inr (Or.inr ⟨m, ?_⟩))
        simp [cleanResponseTry, h1, hp, hq]
      | ok piece =>
        cases hj : jsonLoads (sentinelJsonStr piece) with
        | ok j =>
          refine Or.inl ⟨sentinelJsonStr piece, j, ?_, hj⟩
          simp [cleanResponseTry, h1, hp, hq, jsonLoadsExc, hj]
        | error m =>
          refine Or.inr (Or.inr (Or.inl ⟨m, ?_⟩))
          simp [cleanResponseTry, h1, hp, hq, jsonLoadsExc, hj]
  · cases hb : braceMatch (cleanedText s.data) with
    | none =>
      refine Or.inr (Or.inl ?_)
      simp [cleanResponseTry, h1, hb]
    | some jsonStr =>
      cases hj : jsonLoads jsonStr with
      | ok j =>
        refine Or.inl ⟨jsonStr, j, ?_, hj⟩
        simp [cleanResponseTry, h1, hb, jsonLoadsExc, hj]
      | error m =>
        refine Or.inr (Or.inr (Or.inl ⟨m, ?_⟩))
        simp [cleanResponseTry, h1, hb, jsonLoadsExc, hj]

/-- C2: for every input string, `clean_response` returns a value — no
exception escapes its `try/except` boundary — and that value is either a
successfully parsed JSON value or a structured error object that carries
the original raw text under its `raw_response` key. -/
theorem clean_response_never_raises (s : String) :
    ∃ j, clean_response s = Except.ok j ∧
      (getValue j "raw_response" = some (Json.jstr s) ∨
        ∃ cs, jsonLoads cs = Except.ok j) := by
  rcases cleanResponseTry_cases s with ⟨cs, j, h, hj⟩ | h | ⟨m, h⟩ | ⟨m, h⟩
  · exact ⟨j, by simp [clean_response, h], Or.inr ⟨cs, hj⟩⟩
  · exact ⟨noExtractErr s, by simp [clean_response, h], Or.inl rfl⟩
  · exact ⟨parseFailErr m s, by simp [clean_response, h], Or.inl rfl⟩
  · exact ⟨parseFailErr m s, by simp [clean_response, h], Or.inl rfl⟩

/-- C6: on an input that carries the sentinel markers, `clean_response`
extracts the text between `<startJson>` and `</endJson>`, trims it, wraps
it in braces because it does not begin with one, and parses it; on the
spec's example it yields exactly the object with the `subject` string and
the two-element `syllabus` array. -/
theorem clean_response_sentinel_example :
    clean_response "<startJson>\"subject\":\"X\",\"syllabus\":[\"a\",\"b\"]</endJson>"
      = Except.ok (Json.jobj
          [("subject", Json.jstr "X"),
           ("syllabus", Json.jarr [Json.jstr "a", Json.jstr "b"])]) := rfl

/-- C1 counterexample: the claim "the per-item result is the normalizer's
JSON object, not the raw LLM text" fails at a concrete successful LLM
invocation.  The `clean_response` call in `process_item` is commented out in
the source (src/content_generate_api.py line 116), so the item result is the
raw LLM string, which differs from what the normalizer would return. -/
theorem process_item_skips_normalizer_cex :
    process_item (fun _ => Except.ok "<startJson>\"subject\":\"X\"</endJson>")
        (Json.jstr "Math")
      = Json.jstr "<startJson>\"subject\":\"X\"</endJson>"
    ∧ clean_response "<startJson>\"subject\":\"X\"</endJson>"
      = Except.ok (Json.jobj [("subject", Json.jstr "X")])
    ∧ Json.jstr "<startJson>\"subject\":\"X\"</endJson>"
      ≠ Json.jobj [("subject", Json.jstr "X")] :=
  ⟨rfl, rfl, fun h => Json.noConfusion h⟩

/-- C1 amended: for every item whose LLM invocation succeeds, `process_item`
returns the raw LLM output text unchanged; the Response Normalizer is not
applied on this path. -/
theorem process_item_returns_raw_llm_text (llm : Json → Except PyExc String)
    (subject : Json) (output : String) (h : llm subject = Except.ok output) :
    process_item llm subject = Json.jstr output := by
  simp [process_item, h]

/-- Witness for `process_item_returns_raw_llm_text` at a concrete LLM result. -/
theorem process_item_returns_raw_llm_text_witness :
    (fun (_ : Json) => (Except.ok "syllabus text" : Except PyExc String)) (Json.jstr "Math")
        = Except.ok "syllabus text"
      ∧ process_item (fun _ => Except.ok "syllabus text") (Json.jstr "Math")
        = Json.jstr "syllabus text" :=
  ⟨rfl, process_item_returns_raw_llm_text _ _ _ rfl⟩

/-- A message produced by the check of the item at position `i` (counting
from `idx`) appears in the output of the validation loop. -/
theorem mem_validateItems (items : List Json) (idx i : Nat) (item : Json)
    (msg : String) (hget : items.get? i = some item)
    (hchk : itemCheck (idx + i) item = some msg) :
    msg ∈ validateItems idx items := by
  induction items generalizing idx i with
  | nil => simp at hget
  | cons a as ih =>
    cases i with
    | zero =>
      obtain rfl : a = item := by simpa using hget
      unfold validateItems
      rw [show idx + 0 = idx from rfl] at hchk
      rw [hchk]
      exact List.mem_cons_self _ _
    | succ n =>
      have hget2 : as.get? n = some item := by simpa using hget
      have hchk2 : itemCheck ((idx + 1) + n) item = some msg := by
        rw [show (idx + 1) + n = idx + (n + 1) from by omega]
        exact hchk
      have hmem := ih (idx + 1) n hget2 hchk2
      unfold validateItems
      cases itemCheck idx a with
      | some m => exact List.mem_cons_of_mem _ hmem
      | none => exact hmem

/-- Every message `itemCheck` produces embeds the decimal rendering of the
item's index. -/
theorem itemCheck_names_index (idx : Nat) (item : Json) (msg : String)
    (h : itemCheck idx item = some msg) :
    ∃ a b, msg = a ++ Nat.repr idx ++ b := by
  cases item with
  | jobj kvs =>
    cases hl : lookupKey kvs "subject" with
    | none =>
      simp only [itemCheck, hl] at h
      exact ⟨"Missing \x27subject\x27 field in item at index ", "",
        by simpa using h.symm⟩
    | some v =>
      cases v with
      | jstr s =>
        simp only [itemCheck, hl] at h
        by_cases hs : (pyStrip s.data).isEmpty = true
        · rw [if_pos hs] at h
          exact ⟨"\x27subject\x27 cannot be empty in item at index ", "",
            by simpa using h.symm⟩
        · rw [if_neg hs] at h
          simp at h
      | jnull =>
        simp only [itemCheck, hl] at h
        exact ⟨"\x27subject\x27 must be a string in item at index ", "",
          by simpa using h.symm⟩
      | jbool b =>
        simp only [itemCheck, hl] at h
        exact ⟨"\x27subject\x27 must be a string in item at index ", "",
          by simpa using h.symm⟩
      | jnum n =>
        simp only [itemCheck, hl] at h
        exact ⟨"\x27subject\x27 must be a string in item at index ", "",
          by simpa using h.symm⟩
      | jarr xs =>
        simp only [itemCheck, hl] at h
        exact ⟨"\x27subject\x27 must be a string in item at index ", "",
          by simpa using h.symm⟩
      | jobj kvs2 =>
        simp only [itemCheck, hl] at h
        exact ⟨"\x27subject\x27 must be a string in item at index ", "",
          by simpa using h.symm⟩
  | jnull =>
    simp only [itemCheck] at h
    exact ⟨"Item at index ", " must be an object", by simpa using h.symm⟩
  | jbool b =>
    simp only [itemCheck] at h
    exact ⟨"Item at index ", " must be an object", by simpa using h.symm⟩
  | jnum n =>
    simp only [itemCheck] at h
    exact ⟨"Item at index ", " must be an object", by simpa using h.symm⟩
  | jstr s =>
    simp only [itemCheck] at h
    exact ⟨"Item at index ", " must be an object", by simpa using h.symm⟩
  | jarr xs =>
    simp only [itemCheck] at h
    exact ⟨"Item at index ", " must be an object", by simpa using h.symm⟩

/-- C5: `validate_request` records an error message for every violating
item, and the message names the item's index; on the spec's example, the
output is exactly one message, and it references index 1. -/
theorem validate_request_reports_every_violation :
    (∀ (items : List Json) (i : Nat) (item : Json) (msg : String),
        items.get? i = some item → itemCheck i item = some msg →
          msg ∈ validate_request (Json.jarr items) ∧
            ∃ a b, msg = a ++ Nat.repr i ++ b) ∧
      validate_request (Json.jarr
          [Json.jobj [("subject", Json.jstr "Math")],
           Json.jobj [("foo", Json.jstr "bar")]])
        = ["Missing \x27subject\x27 field in item at index 1"] := by
  constructor
  · intro items i item msg hget hchk
    refine ⟨?_, itemCheck_names_index i item msg hchk⟩
    have hmem := mem_validateItems items 0 i item msg hget (by simpa using hchk)
    simpa [validate_request] using hmem
  · rfl

/-- Witness for `validate_request_reports_every_violation` at a concrete
violating item. -/
theorem validate_request_reports_every_violation_witness :
    [Json.jobj [("foo", Json.jstr "bar")]].get? 0
        = some (Json.jobj [("foo", Json.jstr "bar")])
      ∧ itemCheck 0 (Json.jobj [("foo", Json.jstr "bar")])
        = some "Missing \x27subject\x27 field in item at index 0"
      ∧ ("Missing \x27subject\x27 field in item at index 0"
            ∈ validate_request (Json.jarr [Json.jobj [("foo", Json.jstr "bar")]])
          ∧ ∃ a b, "Missing \x27subject\x27 field in item at index 0"
              = a ++ Nat.repr 0 ++ b) :=
  ⟨rfl, rfl,
    validate_request_reports_every_violation.1
      [Json.jobj [("foo", Json.jstr "bar")]] 0 _ _ rfl rfl⟩

/-- An item passes its validation check exactly when `itemOk` holds:
it is an object whose `subject` is a string nonempty after strip. -/
theorem itemCheck_eq_none_iff (idx : Nat) (item : Json) :
    itemCheck idx item = none ↔ itemOk item = true := by
  cases item with
  | jobj kvs =>
    cases hl : lookupKey kvs "subject" with
    | none => simp [itemCheck, itemOk, getValue, hl]
    | some v =>
      cases v with
      | jstr s =>
        by_cases hs : (pyStrip s.data).isEmpty = true <;>
          simp [itemCheck, itemOk, getValue, hl, hs]
      | jnull => simp [itemCheck, itemOk, getValue, hl]
      | jbool b => simp [itemCheck, itemOk, getValue, hl]
      | jnum n => simp [itemCheck, itemOk, getValue, hl]
      | jarr xs => simp [itemCheck, itemOk, getValue, hl]
      | jobj kvs2 => simp [itemCheck, itemOk, getValue, hl]
  | jnull => simp [itemCheck, itemOk, getValue]
  | jbool b => simp [itemCheck, itemOk, getValue]
  | jnum n => simp [itemCheck, itemOk, getValue]
  | jstr s => simp [itemCheck, itemOk, getValue]
  | jarr xs => simp [itemCheck, itemOk, getValue]

/-- The validation loop reports no error exactly when every item passes its
check. -/
theorem validateItems_eq_nil_iff (idx : Nat) (items : List Json) :
    validateItems idx items = [] ↔ ∀ item ∈ items, itemOk item = true := by
  induction items generalizing idx with
  | nil => simp [validateItems]
  | cons a as ih =>
    cases h : itemCheck idx a with
    | some msg =>
      have ha : ¬ itemOk a = true := by
        intro hok
        rw [← itemCheck_eq_none_iff idx] at hok
        rw [h] at hok
        exact Option.noConfusion hok
      simp [validateItems, h, ha]
    | none =>
      have ha : itemOk a = true := (itemCheck_eq_none_iff idx a).1 h
      simp [validateItems, h, ih (idx + 1), ha]

/-- When every item passes validation, the processing loop of
`generate_syllabus` succeeds and produces exactly the per-item results of
`process_item`, in input order. -/
theorem processItems_ok (llm : Json → Except PyExc String) (items : List Json)
    (h : ∀ item ∈ items, itemOk item = true) :
    processItems llm items
      = Except.ok (items.map (fun item => process_item llm (subjectField item))) := by
  induction items with
  | nil => rfl
  | cons a as ih =>
    have ha : itemOk a = true := h a (List.mem_cons_self _ _)
    obtain ⟨s, hv⟩ : ∃ s, getValue a "subject" = some (Json.jstr s) := by
      unfold itemOk at ha
      cases hg : getValue a "subject" with
      | none => rw [hg] at ha; exact absurd ha (by simp)
      | some v =>
        cases v <;> rw [hg] at ha <;> simp at ha
        case jstr s => exact ⟨s, rfl⟩
    have ih2 := ih (fun x hx => h x (List.mem_cons_of_mem _ hx))
    simp [processItems, pyGetItem, hv, ih2, subjectField]

/-- On a validated request list the endpoint returns status 200 with the
mapped per-item results. -/
theorem generate_syllabus_valid (llm : Json → Except PyExc String)
    (items : List Json) (h : validate_request (Json.jarr items) = []) :
    generate_syllabus llm (some (Json.jarr items))
      = (Json.jarr (items.map (fun item => process_item llm (subjectField item))), 200) := by
  have hall : ∀ item ∈ items, itemOk item = true :=
    (validateItems_eq_nil_iff 0 items).1 (by simpa [validate_request] using h)
  simp [generate_syllabus, generateSyllabusTry, validate_request,
    (validateItems_eq_nil_iff 0 items).2 hall, processItems_ok llm items hall]

/-- C3: for every validated request list of N subject items, the endpoint
returns a 200 response whose result list has exactly length N, and the
result at position i is `process_item` applied to the subject of the input
item at position i (length and order preserved). -/
theorem generate_syllabus_preserves_length_and_order
    (llm : Json → Except PyExc String) (items : List Json)
    (h : validate_request (Json.jarr items) = []) :
    ∃ rs, generate_syllabus llm (some (Json.jarr items)) = (Json.jarr rs, 200)
      ∧ rs.length = items.length
      ∧ ∀ i, rs.get? i
          = (items.get? i).map (fun item => process_item llm (subjectField item)) := by
  refine ⟨_, generate_syllabus_valid llm items h, by simp, ?_⟩
  intro i
  simp [List.get?_eq_getElem?, List.getElem?_map]

/-- Witness for `generate_syllabus_preserves_length_and_order` on a concrete
validated request. -/
theorem generate_syllabus_preserves_length_and_order_witness :
    validate_request (Json.jarr [Json.jobj [("subject", Json.jstr "Math")]]) = []
      ∧ ∃ rs, generate_syllabus (fun _ => Except.ok "raw syllabus")
            (some (Json.jarr [Json.jobj [("subject", Json.jstr "Math")]]))
          = (Json.jarr rs, 200)
        ∧ rs.length = [Json.jobj [("subject", Json.jstr "Math")]].length
        ∧ ∀ i, rs.get? i
            = ([Json.jobj [("subject", Json.jstr "Math")]].get? i).map
                (fun item => process_item (fun _ => Except.ok "raw syllabus")
                  (subjectField item)) :=
  ⟨rfl, generate_syllabus_preserves_length_and_order _ _ rfl⟩

/-- C4: in a validated batch, an LLM invocation failure for the item at
position i is replaced by the structured error object of `process_item`,
and the results of every other position — in particular all later items —
are still computed and returned in the 200 response of full length N. -/
theorem generate_syllabus_continues_after_llm_failure
    (llm : Json → Except PyExc String) (items : List Json) (i : Nat)
    (item : Json) (e : PyExc)
    (hv : validate_request (Json.jarr items) = [])
    (hi : items.get? i = some item)
    (he : llm (subjectField item) = Except.error e) :
    ∃ rs, generate_syllabus llm (some (Json.jarr items)) = (Json.jarr rs, 200)
      ∧ rs.length = items.length
      ∧ rs.get? i = some (Json.jobj
          [("error", Json.jstr "An unexpected error occurred during processing"),
           ("details", Json.jstr (excMsg e))])
      ∧ ∀ j, rs.get? j
          = (items.get? j).map (fun it => process_item llm (subjectField it)) := by
  refine ⟨_, generate_syllabus_valid llm items hv, by simp, ?_, ?_⟩
  · rw [List.get?_eq_getElem?, List.getElem?_map, ← List.get?_eq_getElem?, hi]
    simp [process_item, he]
  · intro j
    simp [List.get?_eq_getElem?, List.getElem?_map]

/-- Witness for `generate_syllabus_continues_after_llm_failure`: in a batch
of two subjects the first LLM call fails and the second result is still
produced. -/
theorem generate_syllabus_continues_after_llm_failure_witness :
    validate_request (Json.jarr
        [Json.jobj [("subject", Json.jstr "A")],
         Json.jobj [("subject", Json.jstr "B")]]) = []
      ∧ [Json.jobj [("subject", Json.jstr "A")],
         Json.jobj [("subject", Json.jstr "B")]].get? 0
          = some (Json.jobj [("subject", Json.jstr "A")])
      ∧ (fun s => match s with
          | Json.jstr "A" => (Except.error (PyExc.other "boom") : Except PyExc String)
          | _ => Except.ok "ok") (subjectField (Json.jobj [("subject", Json.jstr "A")]))
          = Except.error (PyExc.other "boom")
      ∧ ∃ rs, generate_syllabus
            (fun s => match s with
              | Json.jstr "A" => (Except.error (PyExc.other "boom") : Except PyExc String)
              | _ => Except.ok "ok")
            (some (Json.jarr
              [Json.jobj [("subject", Json.jstr "A")],
               Json.jobj [("subject", Json.jstr "B")]]))
          = (Json.jarr rs, 200)
        ∧ rs.length = [Json.jobj [("subject", Json.jstr "A")],
            Json.jobj [("subject", Json.jstr "B")]].length
        ∧ rs.get? 0 = some (Json.jobj
            [("error", Json.jstr "An unexpected error occurred during processing"),
             ("details", Json.jstr (excMsg (PyExc.other "boom")))])
        ∧ ∀ j, rs.get? j
            = ([Json.jobj [("subject", Json.jstr "A")],
                Json.jobj [("subject", Json.jstr "B")]].get? j).map
                (fun it => process_item
                  (fun s => match s with
                    | Json.jstr "A" => (Except.error (PyExc.other "boom") : Except PyExc String)
                    | _ => Except.ok "ok")
                  (subjectField it)) :=
  ⟨rfl, rfl, rfl,
    generate_syllabus_continues_after_llm_failure _ _ 0 _ _ rfl rfl rfl⟩

/-- C7: at every point in a chat session only the most recent 5 stored
turns are displayed (the rendered slice is a suffix of the history of
length at most 5), and the chat pipeline's agent invocation is built from
the prompt alone, so the stored history never supplies more than the latest
5 turns to display or context. -/
theorem chat_history_window (msgs : List ConversationTurn) (prompt : String) :
    (displayed_messages msgs).length ≤ 5
      ∧ displayed_messages msgs <:+ msgs
      ∧ agentPayload prompt = Json.jobj [("input", Json.jstr prompt)] := by
  refine ⟨?_, ⟨msgs.take (msgs.length - 5), List.take_append_drop _ _⟩, rfl⟩
  simp only [displayed_messages, List.length_drop]
  omega

/-- C8: whenever the chat pipeline's answer generation fails — the agent
invocation or the `["output"]` access raises — `generate_response` returns
the fixed user-facing apology string, a constant that carries no detail of
the exception. -/
theorem generate_response_hides_errors (agent : Json → Except PyExc Json)
    (prompt : String) (e : PyExc)
    (h : invokeAgentOutput agent prompt = Except.error e) :
    generate_response agent prompt = Json.jstr apologyMsg := by
  simp [generate_response, h]

/-- Witness for `generate_response_hides_errors` at a concrete failing
agent. -/
theorem generate_response_hides_errors_witness :
    invokeAgentOutput (fun _ => Except.error (PyExc.other "ConnectionError")) "why?"
        = Except.error (PyExc.other "ConnectionError")
      ∧ generate_response (fun _ => Except.error (PyExc.other "ConnectionError")) "why?"
        = Json.jstr apologyMsg :=
  ⟨rfl, generate_response_hides_errors _ _ _ rfl⟩

/-- Membership is preserved by sorted insertion. -/
theorem mem_insertLe {α : Type} (le : α → α → Bool) (a c : α) (l : List α) :
    c ∈ insertLe le a l ↔ c = a ∨ c ∈ l := by
  induction l with
  | nil => simp [insertLe]
  | cons b bs ih =>
    by_cases hle : le a b = true
    · simp [insertLe, hle, ih]
      try tauto
    · simp [insertLe, hle, ih]
      try tauto

/-- Sorting by similarity neither adds nor removes chunks. -/
theorem mem_sortByLe {α : Type} (le : α → α → Bool) (c : α) (l : List α) :
    c ∈ sortByLe le l ↔ c ∈ l := by
  induction l with
  | nil => simp [sortByLe]
  | cons b bs ih => simp [sortByLe, mem_insertLe, ih]

/-- C9: rebuilding the document index from a PDF whose name is new fully
replaces the prior index — every chunk any retrieval query returns through
the rebuilt executor's tool is a chunk split from the newly saved document,
so no chunk of a previous document is ever returned. -/
theorem rebuilt_index_returns_only_new_chunks
    (load : String → List String) (splitDocs : List String → List Chunk)
    (s : AppState) (pdf : UploadedPdf) (sim : String → Chunk → Int)
    (q : String) (k : Nat) (exec : AgentExecutor) (t : Tool) (c : Chunk)
    (hname : s.uploaded_pdf_name.contains pdf.name = false)
    (hexec : (updateAgentState load splitDocs s (some pdf)).agent_executor = some exec)
    (ht : t ∈ exec.tools)
    (hc : c ∈ get_relevant_documents t.store sim q k) :
    c ∈ splitDocs (load (save_uploaded_pdf pdf)) := by
  have hname2 : pdf.name ∉ s.uploaded_pdf_name := by simpa using hname
  have hexec2 : exec = create_agent load splitDocs (some pdf) := by
    simp [updateAgentState, hname2] at hexec
    exact hexec.symm
  subst hexec2
  have ht2 : t = create_retriever_tool_agent load splitDocs (save_uploaded_pdf pdf) := by
    simpa [create_agent] using ht
  subst ht2
  have hc2 : c ∈ sortByLe (fun a b => decide (sim q b ≤ sim q a))
      (splitDocs (load (save_uploaded_pdf pdf))) :=
    List.take_subset _ _ hc
  exact (mem_sortByLe _ c _).1 hc2

/-- Witness for `rebuilt_index_returns_only_new_chunks` on a concrete
one-chunk document. -/
theorem rebuilt_index_returns_only_new_chunks_witness :
    (AppState.mk [] none []).uploaded_pdf_name.contains "new.pdf" = false
      ∧ (updateAgentState (fun _ => ["page1"]) (fun _ => ["chunk1"])
            (AppState.mk [] none []) (some (UploadedPdf.mk "new.pdf" ["page1"]))).agent_executor
        = some (create_agent (fun _ => ["page1"]) (fun _ => ["chunk1"])
            (some (UploadedPdf.mk "new.pdf" ["page1"])))
      ∧ "chunk1" ∈ (fun (_ : List String) => ["chunk1"])
          ((fun (_ : String) => ["page1"])
            (save_uploaded_pdf (UploadedPdf.mk "new.pdf" ["page1"]))) :=
  ⟨rfl, rfl,
    rebuilt_index_returns_only_new_chunks (fun _ => ["page1"]) (fun _ => ["chunk1"])
      (AppState.mk [] none []) (UploadedPdf.mk "new.pdf" ["page1"])
      (fun _ _ => 0) "query" 4
      (create_agent (fun _ => ["page1"]) (fun _ => ["chunk1"])
        (some (UploadedPdf.mk "new.pdf" ["page1"])))
      (create_retriever_tool_agent (fun _ => ["page1"]) (fun _ => ["chunk1"])
        (save_uploaded_pdf (UploadedPdf.mk "new.pdf" ["page1"])))
      "chunk1" rfl rfl (List.Mem.head _) (List.Mem.head _)⟩

/-- C10: when the uploaded PDF's filename is already in the session's set of
uploaded names, `run` leaves the whole session state — in particular the
agent executor and its document index — unchanged, regardless of the file's
content. -/
theorem duplicate_upload_leaves_state_unchanged
    (load : String → List String) (splitDocs : List String → List Chunk)
    (s : AppState) (pdf : UploadedPdf)
    (h : s.uploaded_pdf_name.contains pdf.name = true) :
    updateAgentState load splitDocs s (some pdf) = s := by
  have h2 : pdf.name ∈ s.uploaded_pdf_name := by simpa using h
  simp [updateAgentState, h2]

/-- Witness for `duplicate_upload_leaves_state_unchanged`: re-uploading a
known filename with different content changes nothing. -/
theorem duplicate_upload_leaves_state_unchanged_witness :
    (AppState.mk [] none ["doc.pdf"]).uploaded_pdf_name.contains "doc.pdf" = true
      ∧ updateAgentState (fun _ => []) (fun _ => [])
          (AppState.mk [] none ["doc.pdf"])
          (some (UploadedPdf.mk "doc.pdf" ["changed pages"]))
        = AppState.mk [] none ["doc.pdf"] :=
  ⟨rfl, duplicate_upload_leaves_state_unchanged _ _ _ _ rfl⟩
